import Mathlib

/-
Verification of `csvtable.py` (consave/csvtohtml): a shallow embedding of the
module's operations, followed by theorems about them.

Modelling conventions, mapped to the source.  Every construct is embedded
with its literal CPython semantics:

* Lines 48-50 (`self.headers: list[str]` etc.) are bare annotations: they
  assign nothing, so the attributes do not exist until assigned.  Python
  lists also have no `len` attribute.  Consequently `__init__` raises
  `AttributeError` on every path: at line 60 (`self.rows.append` on the
  never-assigned `self.rows`) as soon as a file yields a data row, and at
  line 71 (`self.rows.len` — or `self.rows` itself unassigned in the file
  branch) otherwise; with header extraction requested on an empty file,
  line 56 (`csvreader.__next__()`) raises `StopIteration` first.  A directly
  invoked `__parse__` likewise raises `AttributeError` at line 103
  (`self.rows.len`) whenever `self.rows` is a list, so everything from
  line 105 on — the column count, the header alignment of lines 110-119 and
  the emission loop of lines 121-136 — is unreachable.  The embedding
  returns these errors.

* The guards `type(x) == list[list[str]]` (line 65) and
  `type(x) == list[str]` (lines 68 and 110) compare the bare class `list`
  (or `NoneType`) with a parameterized generic alias; in CPython this
  comparison is `False` for every value.  They are embedded as the
  constant-false tests below.  In the no-filename branch lines 65 and 68 do
  execute (the crash comes later, at line 71), so the stored-header logic of
  lines 68-69 is real executed behaviour.

* `add_html` calls `self.table.insert("<body>", 0)` (lines 147-149) with the
  value and the index swapped; `list.insert` takes the index first, so each
  of these calls raises `TypeError` in CPython.  The embedding returns that
  error.

* Files are modelled as `Option (List String)`: `none` is an absent
  destination, `some c` an existing destination whose content is the sequence
  of strings `c`.  `os.path.exists` is `Option.isSome`; opening with mode
  `'w'` truncates to `[]`; `writelines` appends the written strings.

* The command-line surface of `main` (lines 190-213) is embedded as a pure
  function of the full argument vector `sys.argv` (which, as in the source
  loop `for argument in sys.argv`, includes the program name at index 0), a
  predicate telling which paths `os.path.isfile` accepts, and the value of
  `sys.stdin.isatty()`.  The slice test `argument[0:2] == "-w="` is embedded
  as written: a two-character take compared with a three-character literal.

* Reading a CSV file is modelled by handing `__init__` the already-split
  rows of the file (`Option (List (List String))`, `none` when no filename
  was given).
-/

namespace CsvToHtml

/-- Python exceptions that the embedded operations can raise. -/
inductive PyExc where
  | fileExistsError
  | typeError
  | attributeError
  | stopIteration
deriving DecidableEq

/-- CPython value of `type(x) == list[str]` (csvtable.py lines 68 and 110):
`type(x)` is the bare class `list` (or `NoneType`), which is never equal to
the generic alias `list[str]`, so the comparison is `False` for every value. -/
def typeEqListStr (_x : Option (List String)) : Bool := false

/-- CPython value of `type(x) == list[list[str]]` (csvtable.py line 65);
always `False`, for the same reason as `typeEqListStr`. -/
def typeEqListListStr (_x : Option (List (List String))) : Bool := false

/-- Embedding of `WorkingTable.__parse__` (csvtable.py lines 97-136) as a
function of the `self.headers` and `self.rows` attribute values.  Lines
98-102: `self.table` is set to `None` and the method returns when
`self.rows is None`.  Line 103 then evaluates `self.rows.len` on a list;
Python lists have no `len` attribute, so this raises `AttributeError` for
every list value, making everything from line 105 on — the column count, the
header alignment of lines 110-119 and the emission loop of lines 121-136 —
unreachable. -/
def parse (_headers : Option (List String)) (rows : Option (List (List String))) :
    Except PyExc (Option (List String)) :=
  match rows with
  | none => Except.ok none
  | some _ => Except.error PyExc.attributeError

/-- Embedding of csvtable.py lines 68-69: the header value stored after the
`headerlist` parameter has been considered.  The guard
`type(headerlist) == list[str]` is `typeEqListStr headerlist`, i.e. always
`false`, so the stream-derived candidate is kept.  (The `then` branch also
calls `copy(headerlist)` on the `copy` module, which would itself raise
`TypeError`; the branch is unreachable.) -/
def storedHeaders (streamHeaders headerlist : Option (List String)) :
    Option (List String) :=
  if typeEqListStr headerlist then headerlist else streamHeaders

/-- State a fully constructed `WorkingTable` would carry: `self.rows` and
`self.table` (csvtable.py lines 48-76).  No execution of `__init__` ever
produces such a state (see `initTable`). -/
structure WorkingTable where
  rows : Option (List (List String))
  table : Option (List String)
deriving DecidableEq

/-- Embedding of `WorkingTable.__init__` (csvtable.py lines 34-76).
`fileRows` is `some` of the already-split rows of the CSV file when a
filename string was passed, `none` otherwise.

With a file: when `getheaders` is true and the file is empty, line 56
(`csvreader.__next__()`) raises `StopIteration`.  Otherwise, `self.rows` is
never assigned in this branch (lines 48-50 are bare annotations), so the
first data row raises `AttributeError` at line 60 (`self.rows.append`), and
a file with no remaining data rows raises `AttributeError` at line 71, where
the never-assigned `self.rows` is read.

Without a file: line 63 sets `self.rows = [[]]`; lines 65 and 68 execute
(their guards are the always-false CPython type comparisons, so `rowarray`
and `headerlist` are ignored — see `typeEqListListStr` and `storedHeaders`);
line 71 then evaluates `self.rows.len` on a list and raises
`AttributeError`.

Every path therefore raises; no `WorkingTable` state is ever produced and
`self.table` is never assigned. -/
def initTable (fileRows : Option (List (List String))) (getheaders : Bool)
    (_rowarray : Option (List (List String))) (_headerlist : Option (List String)) :
    Except PyExc WorkingTable :=
  match fileRows with
  | some frs =>
    if getheaders && frs.isEmpty then
      Except.error PyExc.stopIteration
    else
      Except.error PyExc.attributeError
  | none =>
    Except.error PyExc.attributeError

/-- CPython behaviour of `self.table.insert(value, 0)` (csvtable.py lines
147-149): `list.insert` takes the index first, so the string passed in index
position raises `TypeError: 'str' object cannot be interpreted as an
integer`, and the list is not modified. -/
def insertStrIndex (_xs : List String) (_value : String) :
    Except PyExc (List String) :=
  Except.error PyExc.typeError

/-- Embedding of `WorkingTable.add_html` (csvtable.py lines 138-151):
`none` when `self.table is None` (lines 144-145, a no-op), otherwise the
three swapped-argument `insert` calls of lines 147-149 followed by the two
appends of lines 150-151. -/
def addHtml (table : Option (List String)) : Except PyExc (Option (List String)) :=
  match table with
  | none => Except.ok none
  | some t =>
    match insertStrIndex t "<body>" with
    | Except.error e => Except.error e
    | Except.ok t1 =>
      match insertStrIndex t1 "<html>" with
      | Except.error e => Except.error e
      | Except.ok t2 =>
        match insertStrIndex t2 "<!DOCTYPE html>" with
        | Except.error e => Except.error e
        | Except.ok t3 => Except.ok (some (t3 ++ ["</body>", "</html>"]))

/-- Embedding of `os.path.exists(filename)` (csvtable.py line 88) on the
destination modelled as `Option` content: true exactly when the destination
exists, whatever its content. -/
def osPathExists (dest : Option (List String)) : Bool := dest.isSome

/-- Specification-side notion used by the persistence contract wording: a
destination is pre-populated when it already has content.  An existing but
empty destination is not pre-populated.  This definition follows the
specification's words and exists to be compared with `osPathExists`, which is
what the source actually tests. -/
def destPrePopulated (dest : Option (List String)) : Bool :=
  match dest with
  | none => false
  | some c => !c.isEmpty

/-- Embedding of `WorkingTable.save` (csvtable.py lines 78-95) as a function
from the table and the destination's prior state to the outcome and the
destination's new state.  Lines 88-89: raise `FileExistsError` (destination
untouched) when overwrite was not requested and the destination exists.
Line 91: `open(filename, 'w')` truncates the destination to empty.
Lines 92-94: a `None` table leaves the destination empty; line 95:
`writelines` writes the table's strings. -/
def save (table : Option (List String)) (overwrite : Bool)
    (dest : Option (List String)) : Except PyExc Unit × Option (List String) :=
  if !overwrite && osPathExists dest then
    (Except.error PyExc.fileExistsError, dest)
  else
    match table with
    | none => (Except.ok (), some [])
    | some t => (Except.ok (), some t)

/-- Outcome of the command-line entry point's argument handling
(csvtable.py lines 190-213). -/
inductive MainOutcome where
  | errUnexpectedArg (a : String)
  | errNotFound (f : String)
  | errNoInput
  | runFile (readfile : String) (addhtml : Bool) (writefile : Option String)
  | runStdin (addhtml : Bool) (writefile : Option String)
deriving DecidableEq

/-- Embedding of the argument loop of `main` (csvtable.py lines 190-202),
which iterates over all of `sys.argv`, the program name included.  The test
`argument[0:2] == "-w="` compares a two-character slice with a
three-character literal, exactly as written. -/
def scanLoop : List String → Bool → Option String → Option String →
    Except String (Bool × Option String × Option String)
  | [], addhtml, writefile, readfile => Except.ok (addhtml, writefile, readfile)
  | a :: rest, addhtml, writefile, readfile =>
    if a = "-h" then
      scanLoop rest true writefile readfile
    else if a.take 2 = "-w=" then
      scanLoop rest addhtml (some (a.drop 3)) readfile
    else if readfile.isSome then
      Except.error ("csvtable.py ERROR: unexpected argument: " ++ a)
    else
      scanLoop rest addhtml writefile (some a)

/-- Embedding of the dispatch of `main` (csvtable.py lines 204-213):
with a read file, report not-found when `os.path.isfile` rejects it,
otherwise proceed on the file; with no read file, report "no input given"
when `sys.stdin.isatty()` is `False`, otherwise proceed on standard input. -/
def mainOutcome (argv : List String) (isfile : String → Bool)
    (stdinIsatty : Bool) : MainOutcome :=
  match scanLoop argv false none none with
  | Except.error a => MainOutcome.errUnexpectedArg a
  | Except.ok (addhtml, writefile, readfile) =>
    match readfile with
    | some f =>
      if isfile f = false then MainOutcome.errNotFound f
      else MainOutcome.runFile f addhtml writefile
    | none =>
      if stdinIsatty = false then MainOutcome.errNoInput
      else MainOutcome.runStdin addhtml writefile

/-- Claim C1, evaluated on the code: with data rows present and no header
requested, no render is ever built.  Construction raises `AttributeError` at
line 60 (`self.rows.append` on the never-assigned `self.rows`), and even a
direct `__parse__` call raises at line 103 (`self.rows.len`), so
`WorkingTable.table` never holds the claimed tag sequence. -/
theorem renderNeverBuilt (first : List String) (rest : List (List String)) :
    initTable (some (first :: rest)) false none none =
      Except.error PyExc.attributeError
    ∧ parse none (some (first :: rest)) = Except.error PyExc.attributeError := by
  exact ⟨rfl, rfl⟩

/-- Claim C2, evaluated on the code: a header row is never rendered — with
any header candidate and any row list, `__parse__` raises `AttributeError`
at line 103 before the header-alignment guard of line 110 can run, and
construction with header extraction raises at line 60 or 71 before that. -/
theorem headerRowNeverRendered (hs : List String) (rows : List (List String)) :
    parse (some hs) (some rows) = Except.error PyExc.attributeError
    ∧ initTable (some [["a", "b"], ["1", "2"]]) true none none =
        Except.error PyExc.attributeError := by
  exact ⟨rfl, rfl⟩

/-- Claim C3, evaluated on the code: no zero-data-row input ever yields a
constructed table.  An empty file without header extraction and the
no-filename case raise `AttributeError` at line 71 (where `self.rows` is
respectively unassigned, and the list `[[]]` without a `len` attribute); a
one-row file whose only row is consumed as the header raises `AttributeError`
at line 71 as well; with header extraction on a fully empty file line 56
raises `StopIteration`.  The `table` attribute is therefore never set to
`None`, and neither `add_html` nor `save` is reached on a constructed
object. -/
theorem zeroRowsCrash :
    initTable (some []) false none none = Except.error PyExc.attributeError
    ∧ initTable (some [["h1", "h2"]]) true none none =
        Except.error PyExc.attributeError
    ∧ initTable none false none none = Except.error PyExc.attributeError
    ∧ initTable (some []) true none none = Except.error PyExc.stopIteration := by
  exact ⟨rfl, rfl, rfl, rfl⟩

/-- Claim C4, evaluated on the code: applying the document wrap to a present
render does not add the wrapper lines; the first swapped-argument `insert`
call raises `TypeError` and the table is left as it was. -/
theorem addHtmlRaises :
    addHtml (some ["<table>", "</table>"]) = Except.error PyExc.typeError := by
  rfl

/-- Claim C5 (amended): `save` raises `FileExistsError` exactly when
overwrite was not requested and the destination exists — existence, not
content, is what line 88 tests — and when the destination is absent or
overwrite is requested it succeeds, writing the rendered line sequence (an
empty sequence for an absent render). -/
theorem saveExistsCheck (table : Option (List String)) (ow : Bool)
    (dest : Option (List String)) :
    ((save table ow dest).1 = Except.error PyExc.fileExistsError ↔
      (ow = false ∧ osPathExists dest = true))
    ∧ ((ow = true ∨ dest = none) →
        save table ow dest = (Except.ok (), some (table.getD []))) := by
  cases ow <;> cases dest <;> cases table <;> simp [save, osPathExists]

/-- Witness for `saveExistsCheck`: with a pre-existing destination the
no-overwrite call raises and the overwrite call writes the table lines. -/
theorem saveExistsCheck_witness :
    (save (some ["x"]) false (some ["y"])).1 = Except.error PyExc.fileExistsError
    ∧ save (some ["x"]) true (some ["y"]) = (Except.ok (), some ["x"]) :=
  ⟨(saveExistsCheck (some ["x"]) false (some ["y"])).1.mpr ⟨rfl, rfl⟩,
   (saveExistsCheck (some ["x"]) true (some ["y"])).2 (Or.inl rfl)⟩

/-- Counterexample to claim C5 as stated: an existing but empty destination
is not pre-populated, yet `save` without overwrite raises `FileExistsError`
on it, because line 88 tests existence and not content. -/
theorem savePrePopulated_cex :
    (save (some ["x"]) false (some [])).1 = Except.error PyExc.fileExistsError
    ∧ destPrePopulated (some []) = false := by
  exact ⟨rfl, rfl⟩

/-- Claim C6, evaluated on the code: no data row is ever rendered with any
number of cells.  For any row list, ragged or not, `__parse__` raises
`AttributeError` at line 103 before the row loop of lines 130-134 runs, and
construction of the ragged example (header `a,b,c`, then data row `1,2`)
raises `AttributeError` at line 60 first. -/
theorem raggedRowsCrash (headers : Option (List String)) (r1 r2 : List String)
    (rest : List (List String)) :
    parse headers (some (r1 :: r2 :: rest)) = Except.error PyExc.attributeError
    ∧ initTable (some [["a", "b", "c"], ["1", "2"]]) true none none =
        Except.error PyExc.attributeError := by
  exact ⟨rfl, rfl⟩

/-- Claim C7, evaluated on the code.  First two parts: the loop of
`main` scans all of `sys.argv`, so with no input file argument the program
name itself becomes the read file and the program proceeds on it — whether or
not data is piped on standard input — instead of reporting the no-input
error.  Last two parts: on the (program-name-free) argument vector that does
leave the read file unset, the tty test of line 209 is inverted: the
"no input given" error fires exactly when `isatty()` is `False`, i.e. when
data IS being piped in, while a terminal standard input proceeds to be read. -/
theorem mainArgScan :
    mainOutcome ["csvtable.py"] (fun _ => true) false =
      MainOutcome.runFile "csvtable.py" false none
    ∧ mainOutcome ["csvtable.py"] (fun _ => true) true =
      MainOutcome.runFile "csvtable.py" false none
    ∧ mainOutcome ["-h"] (fun _ => false) false = MainOutcome.errNoInput
    ∧ mainOutcome ["-h"] (fun _ => false) true = MainOutcome.runStdin true none := by
  exact ⟨rfl, rfl, rfl, rfl⟩

/-- Claim C8, evaluated on the code: the explicit header list supplied at
construction never replaces the stored header, because the guard of line 68
is false for every value; the stream-derived candidate (or the absent header)
is kept unchanged. -/
theorem headerlistIgnored :
    storedHeaders (some ["a", "b"]) (some ["X", "Y"]) = some ["a", "b"]
    ∧ storedHeaders none (some ["X", "Y"]) = none := by
  exact ⟨rfl, rfl⟩

/-- Claim C9, evaluated on the code: the `columns < 1` short-circuit of
lines 105-107 is unreachable.  With a present, zero-field first data row,
`__parse__` raises `AttributeError` at line 103 (`self.rows.len`) before the
column count is ever computed, so parsing crashes instead of gracefully
producing an absent render. -/
theorem emptyFirstRowCrash (headers : Option (List String))
    (rest : List (List String)) :
    parse headers (some ([] :: rest)) = Except.error PyExc.attributeError := by
  rfl

/-- Claim C10: whenever `save` raises the already-exists error — that is, for
any existing destination content without overwrite — the destination keeps
exactly its prior content: the existence test and the raise of lines 88-89
come before the destination is opened for writing at line 91. -/
theorem saveErrorPreserves (table : Option (List String)) (c : List String) :
    save table false (some c) = (Except.error PyExc.fileExistsError, some c) := by
  simp [save, osPathExists]

/-- Witness for `saveErrorPreserves` at a concrete destination content. -/
theorem saveErrorPreserves_witness :
    save (some ["x"]) false (some ["y"]) =
      (Except.error PyExc.fileExistsError, some ["y"]) :=
  saveErrorPreserves (some ["x"]) ["y"]

end CsvToHtml
